import Mathlib

/-!
Verification of the CC1101 RX profile demo (src/CC1101/rx_profile_demo.cpp).

The program parses command-line tokens into a radio configuration
(addr, mode, freq, channel), writes the configuration into the driver's
slots, calls `begin`, and on success dumps registers and shuts down.
We embed the argument-parsing loop and the driver-invocation sequence,
modelling the driver interaction as an event trace.
-/

/-- C `isspace` for the default locale, as consumed by `atoi`. -/
def isSpaceC (c : Char) : Bool :=
  c = ' ' || c = '\t' || c = '\n' || c = '\x0b' || c = '\x0c' || c = '\r'

/-- Accumulate the leading decimal digits, as the digit loop of C `atoi`. -/
def atoiDigits : List Char → Nat → Nat
  | [], acc => acc
  | c :: cs, acc => if c.isDigit then atoiDigits cs (acc * 10 + (c.toNat - 48)) else acc

/-- C `atoi`: skip leading whitespace, optional sign, then leading decimal
digits; a string with no leading digits after the optional sign yields 0. -/
def atoi (s : String) : Int :=
  match s.data.dropWhile isSpaceC with
  | '-' :: cs => -(atoiDigits cs 0 : Int)
  | '+' :: cs => (atoiDigits cs 0 : Int)
  | cs => (atoiDigits cs 0 : Int)

/-- The local configuration variables of `main`: `uint8_t addr` and the
three `int` variables `mode`, `freq`, `channel` (lines 27-30). -/
structure Config where
  addr : Nat
  mode : Int
  freq : Int
  channel : Int
deriving DecidableEq, Repr

/-- Defaults from lines 27-30: addr=1, mode=0x03 (GFSK 100 kb),
freq=0x03 (868.3 MHz), channel=0. -/
def defaultConfig : Config := { addr := 1, mode := 0x03, freq := 0x03, channel := 0 }

/-- Outcome of the argument loop (lines 32-46): help requested, an
argument rejected by the final `else` branch, or a resolved configuration. -/
inductive ParseResult where
  | help
  | unknownArg (tok : String)
  | ok (cfg : Config)
deriving DecidableEq, Repr

/-- The `for` loop of `main` (lines 32-46), one token at a time. A
value-taking flag (`-addr`, `-freq`, `-channel`) is guarded by
`i+1<argc`; when the guard fails the whole condition is false and the
token falls through to the final `else` (unknown argument). -/
def parseArgs : List String → Config → ParseResult
  | [], cfg => .ok cfg
  | tok :: rest, cfg =>
    if tok = "-h" then .help
    else if tok = "-mTPMS" then parseArgs rest { cfg with mode := 0x07, freq := 0x02 }
    else if tok = "-mIoT" then parseArgs rest { cfg with mode := 0x08, freq := 0x03 }
    else if tok = "-mGFSK100" then parseArgs rest { cfg with mode := 0x03 }
    else if tok = "-mOOK" then parseArgs rest { cfg with mode := 0x06 }
    else if tok = "-addr" then
      match rest with
      | v :: rest2 => parseArgs rest2 { cfg with addr := ((atoi v) % 256).toNat }
      | [] => .unknownArg tok
    else if tok = "-freq" then
      match rest with
      | v :: rest2 => parseArgs rest2 { cfg with freq := atoi v }
      | [] => .unknownArg tok
    else if tok = "-channel" then
      match rest with
      | v :: rest2 => parseArgs rest2 { cfg with channel := atoi v }
      | [] => .unknownArg tok
    else .unknownArg tok

/-- Calls made on the CC1100 driver object and its configuration slots
(lines 48-63): `set_debug_level`, the writes to `cc1100_freq_select`,
`cc1100_mode_select`, `cc1100_channel_select`, `begin(my_addr)`,
`show_register_settings`, `end`. -/
inductive Ev where
  | setDebugLevel (level : Int)
  | writeSlots (freq_select mode_select channel_select : Int)
  | beginCall (addr : Nat)
  | showRegisterSettings
  | endCall
deriving DecidableEq, Repr

/-- Lines printed to standard output, abstracted per `printf` site:
the usage text, the "Unknown argument: %s" line, the
"Failed to init CC1101" diagnostic, and the "Applied profile" line
with its four formatted values. -/
inductive OutLine where
  | usageText
  | unknownMsg (tok : String)
  | initFailed
  | applied (mode freq channel : Int) (addr : Nat)
deriving DecidableEq, Repr

/-- Observable result of one process run: exit code, printed lines in
order, and the driver-call trace in order. -/
structure RunOutcome where
  exitCode : Nat
  output : List OutLine
  trace : List Ev
deriving DecidableEq, Repr

/-- The whole of `main` (lines 26-65). `beginOk` is the boolean result
of the external driver's `begin` call. On help: usage, exit 0. On an
unknown argument: message plus usage, exit 1, driver untouched. Otherwise
the driver slots are written, `begin(addr)` is called; on failure the
diagnostic is printed and the exit code is 2; on success the applied
configuration is printed, registers dumped, driver shut down, exit 0. -/
def mainRun (args : List String) (beginOk : Bool) : RunOutcome :=
  match parseArgs args defaultConfig with
  | .help => { exitCode := 0, output := [.usageText], trace := [] }
  | .unknownArg tok => { exitCode := 1, output := [.unknownMsg tok, .usageText], trace := [] }
  | .ok cfg =>
    let pre : List Ev :=
      [.setDebugLevel 1, .writeSlots cfg.freq cfg.mode cfg.channel, .beginCall cfg.addr]
    if beginOk then
      { exitCode := 0
        output := [.applied cfg.mode cfg.freq cfg.channel cfg.addr]
        trace := pre ++ [.showRegisterSettings, .endCall] }
    else
      { exitCode := 2, output := [.initFailed], trace := pre }

/-- Parsing is strictly sequential: a successfully parsed prefix of the
argument list leaves a configuration from which the remaining arguments
are parsed. -/
theorem parseArgs_append (args1 : List String) (cfg cfg' : Config)
    (h : parseArgs args1 cfg = .ok cfg') (args2 : List String) :
    parseArgs (args1 ++ args2) cfg = parseArgs args2 cfg' := by
  induction args1, cfg using parseArgs.induct with
  | case1 cfg =>
    rw [parseArgs.eq_def] at h
    simp only [ParseResult.ok.injEq] at h
    subst h
    simp
  | _ =>
    simp only [List.cons_append]
    rw [parseArgs.eq_def] at h
    rw [parseArgs.eq_def]
    simp_all

/-- A token matching none of the eight recognized flags makes the loop
take the final `else` branch. -/
theorem parseArgs_unknown (tok : String) (rest : List String) (cfg : Config)
    (h1 : tok ≠ "-h") (h2 : tok ≠ "-mTPMS") (h3 : tok ≠ "-mIoT")
    (h4 : tok ≠ "-mGFSK100") (h5 : tok ≠ "-mOOK") (h6 : tok ≠ "-addr")
    (h7 : tok ≠ "-freq") (h8 : tok ≠ "-channel") :
    parseArgs (tok :: rest) cfg = .unknownArg tok := by
  rw [parseArgs.eq_def]
  simp [h1, h2, h3, h4, h5, h6, h7, h8]

/-- Claim C1: every profile flag, processed from any current configuration
and followed by any remaining arguments, sets the (mode, frequencyBand)
pair per the fixed table: -mTPMS sets mode=0x07 and freq=0x02; -mIoT sets
mode=0x08 and freq=0x03; -mGFSK100 sets mode=0x03 leaving freq unchanged;
-mOOK sets mode=0x06 leaving freq unchanged. -/
theorem profile_flags_fixed_table (cfg : Config) (rest : List String) :
    parseArgs ("-mTPMS" :: rest) cfg = parseArgs rest { cfg with mode := 0x07, freq := 0x02 } ∧
    parseArgs ("-mIoT" :: rest) cfg = parseArgs rest { cfg with mode := 0x08, freq := 0x03 } ∧
    parseArgs ("-mGFSK100" :: rest) cfg = parseArgs rest { cfg with mode := 0x03 } ∧
    parseArgs ("-mOOK" :: rest) cfg = parseArgs rest { cfg with mode := 0x06 } := by
  refine ⟨?_, ?_, ?_, ?_⟩ <;> (rw [parseArgs.eq_def]; simp)

/-- Claim C2: with no command-line arguments the resolved configuration is
exactly mode=0x03, frequencyBand=0x03, channel=0, nodeAddress=1. -/
theorem default_config_resolution :
    parseArgs [] defaultConfig
      = .ok { addr := 1, mode := 0x03, freq := 0x03, channel := 0 } := rfl

/-- Claim C3: arguments are processed strictly left to right, so the last
flag writing a field wins: a successfully parsed prefix leaves a
configuration from which the rest is parsed; in particular
[-mTPMS, -freq, 4] resolves freq=4 and [-freq, 4, -mTPMS] resolves
freq=0x02. -/
theorem last_flag_wins (args1 args2 : List String) (cfg cfg' : Config)
    (h : parseArgs args1 cfg = .ok cfg') :
    parseArgs (args1 ++ args2) cfg = parseArgs args2 cfg' ∧
    parseArgs ["-mTPMS", "-freq", "4"] defaultConfig
      = .ok { addr := 1, mode := 0x07, freq := 4, channel := 0 } ∧
    parseArgs ["-freq", "4", "-mTPMS"] defaultConfig
      = .ok { addr := 1, mode := 0x07, freq := 0x02, channel := 0 } :=
  ⟨parseArgs_append args1 cfg cfg' h args2, by decide, by decide⟩

/-- Witness for C3 at the concrete prefix [-mOOK] and suffix [-channel, 5]. -/
theorem last_flag_wins_witness :
    parseArgs (["-mOOK"] ++ ["-channel", "5"]) defaultConfig
      = parseArgs ["-channel", "5"] { addr := 1, mode := 0x06, freq := 0x03, channel := 0 } ∧
    parseArgs ["-mTPMS", "-freq", "4"] defaultConfig
      = .ok { addr := 1, mode := 0x07, freq := 4, channel := 0 } ∧
    parseArgs ["-freq", "4", "-mTPMS"] defaultConfig
      = .ok { addr := 1, mode := 0x07, freq := 0x02, channel := 0 } :=
  last_flag_wins ["-mOOK"] ["-channel", "5"] defaultConfig
    { addr := 1, mode := 0x06, freq := 0x03, channel := 0 } (by decide)

/-- Claim C4: when parsing succeeds and the driver's begin call reports
failure, the process prints the init-failure diagnostic, exits with
code 2, and neither show_register_settings nor end is ever called. -/
theorem begin_failure_exits_2 (args : List String) (cfg : Config)
    (h : parseArgs args defaultConfig = .ok cfg) :
    (mainRun args false).exitCode = 2 ∧
    OutLine.initFailed ∈ (mainRun args false).output ∧
    Ev.showRegisterSettings ∉ (mainRun args false).trace ∧
    Ev.endCall ∉ (mainRun args false).trace := by
  simp [mainRun, h]

/-- Witness for C4 with the empty argument list. -/
theorem begin_failure_exits_2_witness :
    (mainRun [] false).exitCode = 2 ∧
    OutLine.initFailed ∈ (mainRun [] false).output ∧
    Ev.showRegisterSettings ∉ (mainRun [] false).trace ∧
    Ev.endCall ∉ (mainRun [] false).trace :=
  begin_failure_exits_2 [] defaultConfig (by decide)

/-- Claim C5: if parsing reaches a token that matches no recognized flag,
the process prints the "Unknown argument" message carrying that token,
prints the usage text, exits with code 1, and never touches the driver. -/
theorem unknown_argument_exits_1 (pre rest : List String) (tok : String)
    (cfg : Config) (b : Bool)
    (hpre : parseArgs pre defaultConfig = .ok cfg)
    (htok : tok ∉ ["-h", "-mTPMS", "-mIoT", "-mGFSK100", "-mOOK", "-addr", "-freq", "-channel"]) :
    mainRun (pre ++ tok :: rest) b
      = { exitCode := 1, output := [.unknownMsg tok, .usageText], trace := [] } := by
  have hseq := parseArgs_append pre defaultConfig cfg hpre (tok :: rest)
  simp only [List.mem_cons, List.not_mem_nil, or_false, not_or] at htok
  obtain ⟨h1, h2, h3, h4, h5, h6, h7, h8⟩ := htok
  have hstep := parseArgs_unknown tok rest cfg h1 h2 h3 h4 h5 h6 h7 h8
  simp [mainRun, hseq, hstep]

/-- Witness for C5 at the single unknown token -bogus. -/
theorem unknown_argument_exits_1_witness :
    mainRun ["-bogus"] true
      = { exitCode := 1, output := [.unknownMsg "-bogus", .usageText], trace := [] } :=
  unknown_argument_exits_1 [] [] "-bogus" defaultConfig true (by decide) (by decide)

/-- Counterexample to claim C6: with the argument list [-addr] the dangling
value flag is not silently dropped; the program prints the unknown-argument
report naming -addr plus the usage text and exits with code 1, rather than
continuing as if the flag had not appeared. -/
theorem dangling_addr_not_silently_dropped :
    (mainRun ["-addr"] true).exitCode = 1 ∧
    (mainRun ["-addr"] true).output = [.unknownMsg "-addr", .usageText] ∧
    mainRun ["-addr"] true ≠ mainRun [] true := by decide

/-- Claim C6 as amended: a value-taking flag (-addr, -freq, or -channel)
appearing as the last token with no following value fails its i+1<argc
guard and falls through to the unknown-argument branch: the process prints
"Unknown argument" naming that flag plus the usage text, and exits with
code 1 without invoking the driver. -/
theorem dangling_value_flag_is_unknown_argument (pre : List String)
    (cfg : Config) (f : String) (b : Bool)
    (hpre : parseArgs pre defaultConfig = .ok cfg)
    (hf : f = "-addr" ∨ f = "-freq" ∨ f = "-channel") :
    mainRun (pre ++ [f]) b
      = { exitCode := 1, output := [.unknownMsg f, .usageText], trace := [] } := by
  have hseq := parseArgs_append pre defaultConfig cfg hpre [f]
  have hstep : parseArgs [f] cfg = .unknownArg f := by
    rcases hf with hf | hf | hf <;> subst hf <;> (rw [parseArgs.eq_def]; simp)
  simp [mainRun, hseq, hstep]

/-- Witness for the amended C6 at the dangling flag -freq. -/
theorem dangling_value_flag_is_unknown_argument_witness :
    mainRun ["-freq"] true
      = { exitCode := 1, output := [.unknownMsg "-freq", .usageText], trace := [] } :=
  dangling_value_flag_is_unknown_argument [] defaultConfig "-freq" true (by decide) (by decide)

/-- Counterexample to claim C7: two argument lists containing -h for which
the process does not behave as claimed: with [-bogus, -h] the exit code is
1, not 0; with [-addr, -h] the driver is invoked (the trace is nonempty)
and no usage text is printed. -/
theorem help_not_always_honored :
    ("-h" ∈ ["-bogus", "-h"] ∧ (mainRun ["-bogus", "-h"] true).exitCode = 1) ∧
    ("-h" ∈ ["-addr", "-h"] ∧ (mainRun ["-addr", "-h"] true).trace ≠ [] ∧
      OutLine.usageText ∉ (mainRun ["-addr", "-h"] true).output) := by decide

/-- Claim C7 as amended: if parsing actually reaches the token -h (every
earlier token parsed successfully, so -h was not consumed as a flag value
and no earlier token aborted parsing), the process prints the usage text,
exits with code 0, all remaining parsing is short-circuited, and the
driver is never invoked. -/
theorem help_short_circuits (pre rest : List String) (cfg : Config) (b : Bool)
    (hpre : parseArgs pre defaultConfig = .ok cfg) :
    mainRun (pre ++ "-h" :: rest) b
      = { exitCode := 0, output := [.usageText], trace := [] } := by
  have hseq := parseArgs_append pre defaultConfig cfg hpre ("-h" :: rest)
  have hstep : parseArgs ("-h" :: rest) cfg = .help := by
    rw [parseArgs.eq_def]
    simp
  simp [mainRun, hseq, hstep]

/-- Witness for the amended C7: -h first, trailing junk never parsed. -/
theorem help_short_circuits_witness :
    mainRun ["-h", "-bogus"] true
      = { exitCode := 0, output := [.usageText], trace := [] } :=
  help_short_circuits [] ["-bogus"] defaultConfig true (by decide)

/-- Claim C8: the -addr flag parses its following token with atoi and
truncates the parsed integer to 8 bits, so nodeAddress becomes the value
modulo 256 for every parsed value; in particular -addr 200 sets
nodeAddress=200 and -addr 300 sets nodeAddress=44. -/
theorem addr_flag_truncates_mod_256 (cfg : Config) (v : String) (rest : List String) :
    parseArgs ("-addr" :: v :: rest) cfg
      = parseArgs rest { cfg with addr := ((atoi v) % 256).toNat } ∧
    parseArgs ["-addr", "200"] defaultConfig
      = .ok { addr := 200, mode := 0x03, freq := 0x03, channel := 0 } ∧
    parseArgs ["-addr", "300"] defaultConfig
      = .ok { addr := 44, mode := 0x03, freq := 0x03, channel := 0 } := by
  refine ⟨?_, by decide, by decide⟩
  rw [parseArgs.eq_def]
  simp

/-- Claim C9: on the success path (parsing completes with configuration
cfg and begin returns true) the exit code is 0, the printed applied line
carries exactly the mode, frequency selection, channel, and address that
were written into the driver's slots and passed to begin, and
show_register_settings occurs in the trace before end. -/
theorem success_path (args : List String) (cfg : Config)
    (h : parseArgs args defaultConfig = .ok cfg) :
    (mainRun args true).exitCode = 0 ∧
    (mainRun args true).output = [.applied cfg.mode cfg.freq cfg.channel cfg.addr] ∧
    (mainRun args true).trace
      = [.setDebugLevel 1, .writeSlots cfg.freq cfg.mode cfg.channel, .beginCall cfg.addr,
         .showRegisterSettings, .endCall] ∧
    ∃ l1 l2 l3, (mainRun args true).trace
      = l1 ++ Ev.showRegisterSettings :: l2 ++ Ev.endCall :: l3 := by
  refine ⟨?_, ?_, ?_,
    [.setDebugLevel 1, .writeSlots cfg.freq cfg.mode cfg.channel, .beginCall cfg.addr],
    [], [], ?_⟩ <;> simp [mainRun, h]

/-- Witness for C9 with the single profile flag -mIoT. -/
theorem success_path_witness :
    (mainRun ["-mIoT"] true).exitCode = 0 ∧
    (mainRun ["-mIoT"] true).output = [.applied 0x08 0x03 0 1] ∧
    (mainRun ["-mIoT"] true).trace
      = [.setDebugLevel 1, .writeSlots 0x03 0x08 0, .beginCall 1,
         .showRegisterSettings, .endCall] ∧
    ∃ l1 l2 l3, (mainRun ["-mIoT"] true).trace
      = l1 ++ Ev.showRegisterSettings :: l2 ++ Ev.endCall :: l3 :=
  success_path ["-mIoT"] { addr := 1, mode := 0x08, freq := 0x03, channel := 0 } (by decide)

/-- Claim C10: a value-taking flag that is not the last token
unconditionally consumes the following token, even when that token is
itself a recognized flag: [-addr, -h] sets nodeAddress to atoi "-h" = 0
and never prints the usage text, and [-freq, -mTPMS] sets
frequencyBand to 0 and never applies the TPMS profile. -/
theorem value_flags_consume_next_token (cfg : Config) (v : String)
    (rest : List String) (b : Bool) :
    parseArgs ("-addr" :: v :: rest) cfg
      = parseArgs rest { cfg with addr := ((atoi v) % 256).toNat } ∧
    parseArgs ("-freq" :: v :: rest) cfg = parseArgs rest { cfg with freq := atoi v } ∧
    parseArgs ("-channel" :: v :: rest) cfg
      = parseArgs rest { cfg with channel := atoi v } ∧
    parseArgs ["-addr", "-h"] defaultConfig
      = .ok { addr := 0, mode := 0x03, freq := 0x03, channel := 0 } ∧
    OutLine.usageText ∉ (mainRun ["-addr", "-h"] b).output ∧
    parseArgs ["-freq", "-mTPMS"] defaultConfig
      = .ok { addr := 1, mode := 0x03, freq := 0, channel := 0 } := by
  refine ⟨?_, ?_, ?_, by decide, ?_, by decide⟩
  · rw [parseArgs.eq_def]; simp
  · rw [parseArgs.eq_def]; simp
  · rw [parseArgs.eq_def]; simp
  · cases b <;> decide
